import Mathlib

/-!
Shallow embedding of the session core of the medical-gynecology-app repository:
`app/core/gynecology_session.py`, `app/core/pregnancy_session.py`,
`app/config/settings.py` and the HTTP handlers of `app/api/routes.py`.

Modelling conventions:
* Python mutable objects become immutable Lean structures; each mutating method
  becomes a function returning the updated structure (plus its return value).
* `datetime.utcnow()` is ambient in Python; every operation that reads the
  clock takes an explicit `now : String` (the isoformat timestamp) and, where
  the age rule needs it, a `currentYear : Int`.
* The Ollama HTTP backend is an oracle argument `oracle : Option String`:
  `none` models a `requests` exception, `some reply` models an HTTP 200 whose
  `message.content` is `reply` (possibly the empty string).
* Python `dict` (insertion ordered, unique keys, update-in-place) is an
  association list whose insert replaces the value at the key's existing
  position, as in `storeInsert` below.
* Python string truthiness (`if s:`) is non-emptiness; `None` is falsy.
* Python `int(text)` is modelled by `parseIntPy`, covering sign plus ASCII
  decimal digits (Python additionally accepts unicode digits and underscore
  separators; no claim depends on those corners).
-/

/-- Python `needle in hay` prefix test on character lists. -/
def charsPre : List Char → List Char → Bool
  | [], _ => true
  | _ :: _, [] => false
  | a :: as, b :: bs => a == b && charsPre as bs

/-- Python `needle in hay` substring containment on character lists. -/
def charsSub (needle : List Char) : List Char → Bool
  | [] => charsPre needle []
  | b :: bs => charsPre needle (b :: bs) || charsSub needle bs

/-- Python `needle in hay` for strings. -/
def pyIn (needle hay : String) : Bool :=
  charsSub needle.toList hay.toList

/-- Python `s.startswith(pre)`. -/
def pyStartsWith (s pre : String) : Bool :=
  charsPre pre.toList s.toList

/-- Python `s.lower()` (ASCII case mapping; the Persian keywords are
case-invariant, so nothing in the claims depends on unicode case folding). -/
def pyLower (s : String) : String :=
  String.mk (s.toList.map Char.toLower)

/-- Python `s[:n]`. -/
def pyTake (s : String) (n : Nat) : String :=
  String.mk (s.toList.take n)

/-- Whitespace stripping from both ends of a character list (Python `strip()`
restricted to ASCII whitespace, all that the claims exercise). -/
def stripChars (cs : List Char) : List Char :=
  ((cs.dropWhile Char.isWhitespace).reverse.dropWhile Char.isWhitespace).reverse

/-- Python `sep.join(parts)`. -/
def joinWith (sep : String) : List String → String
  | [] => ""
  | x :: xs => xs.foldl (fun acc y => acc ++ sep ++ y) x

/-- Python `" ".join(parts)`. -/
def joinSpace (parts : List String) : String :=
  joinWith " " parts

/-- Python `"\n".join(parts)`. -/
def joinNewline (parts : List String) : String :=
  joinWith "\n" parts

/-- Python `s.rstrip("/")` as used on the Ollama base URL. -/
def rstripSlash (s : String) : String :=
  String.mk ((s.toList.reverse.dropWhile (· == '/')).reverse)

/-- Digits-to-number accumulator for `parseIntPy`. -/
def digitsToNat (cs : List Char) : Nat :=
  cs.foldl (fun n c => 10 * n + (c.toNat - 48)) 0

/-- All-ASCII-digit test (nonempty) for `parseIntPy`. -/
def allDigits (cs : List Char) : Bool :=
  !cs.isEmpty && cs.all (·.isDigit)

/-- Python `int(s)` on a stripped string: optional sign then decimal digits;
anything else raises `ValueError`, modelled as `none`. -/
def parseIntPy (s : String) : Option Int :=
  match stripChars s.toList with
  | [] => none
  | '-' :: ds => if allDigits ds then some (-(Int.ofNat (digitsToNat ds))) else none
  | '+' :: ds => if allDigits ds then some (Int.ofNat (digitsToNat ds)) else none
  | cs => if allDigits cs then some (Int.ofNat (digitsToNat cs)) else none

/-- Python truthiness of an `Optional[str]`: `None` and `""` are falsy. -/
def optTruthy : Option String → Bool
  | none => false
  | some t => !t.isEmpty

/-! ## app/config/settings.py -/

/-- `MIN_GYNECOLOGY_AGE = 12` (settings.py). -/
def MIN_GYNECOLOGY_AGE : Int := 12

/-- `PREGNANCY_RULES["required_symptoms"]` (settings.py). -/
def requiredSymptoms : List String :=
  ["تهوع", "استفراغ", "خستگی", "ویار"]

/-- The elapsed-months phrases hard-coded in `_detect_pregnancy`. -/
def monthWords : List String :=
  ["2 ماه", "3 ماه", "سه ماه", "دو ماه"]

/-! ## app/core/gynecology_session.py — data model -/

/-- `SessionStatus` enum. -/
inductive SessionStatus where
  | active
  | completed
  | suspended
deriving DecidableEq, Repr

/-- `SessionStatus(...).value`. -/
def SessionStatus.value : SessionStatus → String
  | .active => "active"
  | .completed => "completed"
  | .suspended => "suspended"

/-- `SessionStatus(v)` constructor lookup by value; an unrecognized value
raises `ValueError`, modelled as `none`. -/
def SessionStatus.parse (v : String) : Option SessionStatus :=
  if v == "active" then some .active
  else if v == "completed" then some .completed
  else if v == "suspended" then some .suspended
  else none

/-- `Message` dataclass: one conversation turn. -/
structure Message where
  role : String
  content : String
  timestamp : String
deriving DecidableEq, Repr

/-- A value of the `patient_answers` dict: either the `{"answer", "timestamp"}`
record written by `submit_answer`, or the bare boolean written under the
reserved `"_age_checked"` key. -/
inductive AnswerVal where
  | entry (answer : String) (timestamp : String)
  | flag (b : Bool)
deriving DecidableEq, Repr

/-- Python truthiness of `patient_answers.get(key)`: a missing key gives
`None` (falsy), a dict record is truthy, a stored boolean is itself. -/
def truthyAns : Option AnswerVal → Bool
  | none => false
  | some (.entry _ _) => true
  | some (.flag b) => b

/-- The `patient_answers` dict: insertion-ordered association list with
unique keys. -/
abbrev AnswerStore := List (String × AnswerVal)

/-- Python dict update `d[k] = v`: replace in place if the key exists,
else append at the end. -/
def storeInsert : AnswerStore → String → AnswerVal → AnswerStore
  | [], k, v => [(k, v)]
  | (k', v') :: rest, k, v =>
      if k' == k then (k, v) :: rest else (k', v') :: storeInsert rest k v

/-- Python `d.get(k)`. -/
def storeLookup (st : AnswerStore) (k : String) : Option AnswerVal :=
  (st.find? (fun p => p.1 == k)).map (·.2)

/-- Number of records stored under a key. -/
def countKey (st : AnswerStore) (k : String) : Nat :=
  (st.filter (fun p => p.1 == k)).length

/-- Unique-keys invariant of a Python dict. -/
def keysNodup (st : AnswerStore) : Prop :=
  (st.map (·.1)).Nodup

/-- The generator `v["answer"] for v in self.patient_answers.values()
if isinstance(v, dict)`: the texts scanned by the rule engine, in insertion
order, skipping the `"_age_checked"` boolean. -/
def answerTexts (st : AnswerStore) : List String :=
  st.filterMap (fun p =>
    match p.2 with
    | .entry a _ => some a
    | .flag _ => none)

/-- `metadata` dict of a gynecology session. -/
structure GynMetadata where
  model : String
  ollama_url : String
  model_switched_at : Option String
deriving DecidableEq, Repr

/-- The mutable state of a `GynecologySession` object. -/
structure GynecologySession where
  session_id : String
  ollama_base_url : String
  model_name : String
  status : SessionStatus
  patient_answers : AnswerStore
  conversation_history : List Message
  pregnancy_suspicion : Bool
  metadata : GynMetadata
  created_at : String
  updated_at : String
deriving DecidableEq, Repr

/-! ## app/core/gynecology_session.py — operations -/

/-- The conjunctive keyword/duration rule of `_detect_pregnancy`: at least one
configured symptom keyword and at least one elapsed-months phrase occur in the
space-joined stored answer texts. -/
def pregnancyRuleFires (st : AnswerStore) : Bool :=
  let answers_text := joinSpace (answerTexts st)
  let symptoms_found := requiredSymptoms.any (fun w => pyIn w answers_text)
  let months_found := monthWords.any (fun w => pyIn w answers_text)
  symptoms_found && months_found

/-- `_detect_pregnancy`: sets `pregnancy_suspicion` to `True` when both rule
halves fire; never clears it. -/
def GynecologySession.detectPregnancy (s : GynecologySession) : GynecologySession :=
  if pregnancyRuleFires s.patient_answers then
    { s with pregnancy_suspicion := true }
  else s

/-- `_add_message`: append a turn and refresh `updated_at`. -/
def GynecologySession.addMessage (s : GynecologySession) (role content now : String) :
    GynecologySession :=
  { s with
    conversation_history := s.conversation_history ++ [⟨role, content, now⟩],
    updated_at := now }

/-- `_call_ollama`: builds the chat payload from the history; on a transport
error it explicitly returns `None`, and on HTTP success it binds the reply to
a local variable but the function body ends without a `return`, so it falls
off the end and yields `None` on that path as well. -/
def GynecologySession.callOllama (_s : GynecologySession) (_user_message : String)
    (oracle : Option String) : Option String :=
  match oracle with
  | some _ => none
  | none => none

/-- The fixed Persian referral text returned by `_validate_age` when the gate fires. -/
def ageReferralText : String :=
  "با توجه به سن بیمار، این نوع ویزیت نیازمند بررسی و ارجاع حضوری توسط پزشک متخصص است."

/-- `_validate_age`: parse the answer as a birth year; if
`currentYear - year < MIN_GYNECOLOGY_AGE` the session is suspended and the
referral text returned; a parse failure is swallowed (`except ValueError: pass`). -/
def GynecologySession.validateAge (s : GynecologySession) (answer : String)
    (currentYear : Int) : GynecologySession × Option String :=
  match parseIntPy answer with
  | some year =>
      if currentYear - year < MIN_GYNECOLOGY_AGE then
        ({ s with status := .suspended }, some ageReferralText)
      else (s, none)
  | none => (s, none)

/-- `_initialize_conversation`: one opening backend call; append the reply as
an assistant turn if truthy (it never is, since `_call_ollama` yields `None`). -/
def GynecologySession.initializeConversation (s : GynecologySession)
    (oracle : Option String) (now : String) : GynecologySession :=
  let opening := s.callOllama
    "Start the consultation with a polite greeting and ask the chief complaint." oracle
  if optTruthy opening then s.addMessage "assistant" (opening.getD "") now else s

/-- `GynecologySession.__init__`. -/
def mkGynecologySession (session_id ollama_base_url model_name now : String)
    (oracle : Option String) : GynecologySession :=
  let s : GynecologySession :=
    { session_id := session_id
      ollama_base_url := rstripSlash ollama_base_url
      model_name := model_name
      status := .active
      patient_answers := []
      conversation_history := []
      pregnancy_suspicion := false
      metadata := ⟨model_name, ollama_base_url, none⟩
      created_at := now
      updated_at := now }
  s.initializeConversation oracle now

/-- `submit_answer`, Phase 1 (after the status guard): run `_detect_pregnancy`
over the answers as currently stored, and only then store the new answer.
This order is taken directly from the source (lines 216 and 219). -/
def GynecologySession.submitStored (s : GynecologySession) (question_key answer now : String) :
    GynecologySession :=
  let s1 := s.detectPregnancy
  { s1 with patient_answers := storeInsert s1.patient_answers question_key (.entry answer now) }

/-- `submit_answer`, shared continuation: append the patient turn, ask the
backend for the next question, append it if truthy, refresh `updated_at`. -/
def GynecologySession.submitContinue (s : GynecologySession) (answer now : String)
    (oracle : Option String) : GynecologySession × Except String (Option String) :=
  let s1 := s.addMessage "user" answer now
  let next_question := s1.callOllama
    "پاسخ بیمار ثبت شد. لطفاً سوال بعدی را طبق ترتیب شرح حال بپرس." oracle
  let s2 := if optTruthy next_question then
      s1.addMessage "assistant" (next_question.getD "") now
    else s1
  ({ s2 with updated_at := now }, .ok next_question)

/-- `submit_answer` body for an active session: detect-then-store, one-shot
age gate on `q`-prefixed keys (the gate short-circuits normal continuation),
otherwise the shared continuation. -/
def GynecologySession.submitActive (s : GynecologySession) (question_key answer now : String)
    (currentYear : Int) (oracle : Option String) :
    GynecologySession × Except String (Option String) :=
  let s1 := s.submitStored question_key answer now
  if pyStartsWith (pyLower question_key) "q"
      && !truthyAns (storeLookup s1.patient_answers "_age_checked") then
    let p := s1.validateAge answer currentYear
    let s2 := { p.1 with
      patient_answers := storeInsert p.1.patient_answers "_age_checked" (.flag true) }
    match p.2 with
    | some w => (s2.addMessage "assistant" w now, .ok (some w))
    | none => s2.submitContinue answer now oracle
  else s1.submitContinue answer now oracle

/-- `submit_answer`: raises `ValueError` unless the session is active
(modelled as `Except.error` with the session untouched, matching the raise
happening before any mutation). -/
def GynecologySession.submit_answer (s : GynecologySession) (question_key answer now : String)
    (currentYear : Int) (oracle : Option String) :
    GynecologySession × Except String (Option String) :=
  if s.status ≠ SessionStatus.active then
    (s, .error ("Session is not active. Status: " ++ s.status.value))
  else
    s.submitActive question_key answer now currentYear oracle

/-- `get_current_question`: most recent assistant turn, scanning from the end. -/
def GynecologySession.get_current_question (s : GynecologySession) : Option String :=
  (s.conversation_history.reverse.find? (fun m => m.role == "assistant")).map (·.content)

/-- `complete_session`: unconditionally force `COMPLETED`. -/
def GynecologySession.complete_session (s : GynecologySession) (now : String) :
    GynecologySession :=
  { s with status := .completed, updated_at := now }

/-- `suspend_session`: unconditionally force `SUSPENDED`. -/
def GynecologySession.suspend_session (s : GynecologySession) (now : String) :
    GynecologySession :=
  { s with status := .suspended, updated_at := now }

/-- `switch_model`. -/
def GynecologySession.switch_model (s : GynecologySession) (new_model_name now : String) :
    GynecologySession :=
  { s with
    model_name := new_model_name,
    metadata := { s.metadata with
      model := new_model_name, model_switched_at := some now },
    updated_at := now }

/-! ## Persistence (`to_dict` / `from_dict`) -/

/-- The persisted record shape shared by `to_json`, `to_dict`,
`save_to_file` and the session files consumed by `load_from_file`. -/
structure SessionRecord where
  session_id : String
  status : String
  patient_answers : AnswerStore
  conversation_history : List Message
  pregnancy_suspicion : Bool
  metadata : GynMetadata
  created_at : String
  updated_at : String
deriving DecidableEq, Repr

/-- `to_dict` (and the `SessionState` built by `to_json`): field-for-field
export of the session. -/
def GynecologySession.to_dict (s : GynecologySession) : SessionRecord :=
  { session_id := s.session_id
    status := s.status.value
    patient_answers := s.patient_answers
    conversation_history := s.conversation_history
    pregnancy_suspicion := s.pregnancy_suspicion
    metadata := s.metadata
    created_at := s.created_at
    updated_at := s.updated_at }

/-- `from_dict` (the body of `load_from_file`): rebuild via `__init__`, then
restore `status` (failing closed on an unrecognized value, as
`SessionStatus(...)` raises), `patient_answers`, `pregnancy_suspicion`,
`metadata`, `created_at`, `updated_at`.  The statement restoring
`conversation_history` (source lines 351-353) is commented out and
syntactically broken — a bare generator expression follows the commented-out
assignment, which does not parse as Python — so the history is modelled as
left exactly as `__init__` produced it (empty, `_call_ollama` returning `None`). -/
def GynecologySession.from_dict (data : SessionRecord) (ollama_base_url now : String)
    (oracle : Option String) : Except String GynecologySession :=
  let session := mkGynecologySession data.session_id ollama_base_url data.metadata.model now oracle
  match SessionStatus.parse data.status with
  | none => .error ("is not a valid SessionStatus: " ++ data.status)
  | some st =>
      .ok { session with
        status := st
        patient_answers := data.patient_answers
        pregnancy_suspicion := data.pregnancy_suspicion
        metadata := data.metadata
        created_at := data.created_at
        updated_at := data.updated_at }

/-! ## app/api/routes.py — gynecology message endpoint -/

/-- `POST /api/gynecology/{session_id}/message`: load the stored record,
submit the message under the single fixed key `"free_text"`, save, and answer
with the reply and the suspicion flag.  A `ValueError` from `submit_answer`
propagates (HTTP 500) and nothing is saved. -/
def gynecology_message (stored : SessionRecord) (message now : String) (currentYear : Int)
    (oracle : Option String) :
    Except String (SessionRecord × (Option String × Bool)) :=
  match GynecologySession.from_dict stored "http://localhost:11434" now none with
  | .error e => .error e
  | .ok session =>
      match session.submit_answer "free_text" message now currentYear oracle with
      | (s', .ok reply) => .ok (s'.to_dict, (reply, s'.pregnancy_suspicion))
      | (_, .error e) => .error e

/-! ## Operation alphabet over a gynecology session -/

/-- One caller-visible mutating operation on a gynecology session, with its
ambient inputs (timestamps, current year, backend oracle). -/
inductive GynOp where
  | submit (question_key answer now : String) (currentYear : Int) (oracle : Option String)
  | complete (now : String)
  | suspend (now : String)
  | switchModel (new_model_name now : String)

/-- The session reached after an operation (a failed `submit_answer` raises
and leaves the object as it was). -/
def GynOp.apply (op : GynOp) (s : GynecologySession) : GynecologySession :=
  match op with
  | .submit k a now cy o => (s.submit_answer k a now cy o).1
  | .complete now => s.complete_session now
  | .suspend now => s.suspend_session now
  | .switchModel m now => s.switch_model m now

/-- Run a sequence of operations. -/
def applyOps (s : GynecologySession) (ops : List GynOp) : GynecologySession :=
  ops.foldl (fun s op => op.apply s) s

/-- The one-time age rule is evaluated during `submit_answer` exactly when the
session is active, the key is `q`-prefixed, and the reserved
`"_age_checked"` flag is not yet truthy. -/
def evalsAge (s : GynecologySession) (k : String) : Bool :=
  (s.status == SessionStatus.active)
    && pyStartsWith (pyLower k) "q"
    && !truthyAns (storeLookup s.patient_answers "_age_checked")

/-- Number of age-rule evaluations performed along a trace of operations. -/
def countAgeEvals (s : GynecologySession) : List GynOp → Nat
  | [] => 0
  | op :: rest =>
      (match op with
        | .submit k _ _ _ _ => if evalsAge s k then 1 else 0
        | _ => 0)
      + countAgeEvals (op.apply s) rest

/-! ## app/core/pregnancy_session.py — data model -/

/-- `PregnancyStatus` enum. -/
inductive PregnancyStatus where
  | suspected
  | confirmed
  | ruled_out
  | needs_testing
deriving DecidableEq, Repr

/-- `PregnancyStatus(...).value`. -/
def PregnancyStatus.value : PregnancyStatus → String
  | .suspected => "suspected"
  | .confirmed => "confirmed"
  | .ruled_out => "ruled_out"
  | .needs_testing => "needs_testing"

/-- `PregnancyData` dataclass.  `beta_hcg` is a Python float; only its printed
form ever reaches session state or the backend message, so it is modelled by
that string. -/
structure PregnancyData where
  lmp : Option String
  gestational_age : Option Int
  beta_hcg : Option String
  ultrasound_findings : Option String
  risk_factors : List String
  symptoms : List String
deriving DecidableEq, Repr

/-- Fresh `PregnancyData()`. -/
def PregnancyData.empty : PregnancyData :=
  ⟨none, none, none, none, [], []⟩

/-- `metadata` dict of a pregnancy session. -/
structure PregMetadata where
  model : String
  transferred_from : Option String
  source_session_id : Option String
deriving DecidableEq, Repr

/-- The mutable state of a `PregnancySession` object. -/
structure PregnancySession where
  session_id : String
  ollama_base_url : String
  pregnancy_model : String
  status : PregnancyStatus
  pregnancy_data : PregnancyData
  conversation_history : List Message
  metadata : PregMetadata
  created_at : String
  updated_at : String
deriving DecidableEq, Repr

/-! ## app/core/pregnancy_session.py — operations -/

/-- Keyword lists of `_detect_pregnancy_status`, in source order. -/
def confirmedWords : List String := ["تایید", "confirmed", "مثبت"]

/-- Testing keywords of `_detect_pregnancy_status`. -/
def testingWords : List String := ["آزمایش", "test", "بتا"]

/-- Negation keywords of `_detect_pregnancy_status`. -/
def negativeWords : List String := ["منفی", "negative", "رد"]

/-- `_detect_pregnancy_status`: classify the lowercased reply; first match in
confirmed → testing → negative priority wins, no match leaves the status. -/
def detectPregnancyStatus (message : String) (st : PregnancyStatus) : PregnancyStatus :=
  let message_lower := pyLower message
  if confirmedWords.any (fun w => pyIn w message_lower) then .confirmed
  else if testingWords.any (fun w => pyIn w message_lower) then .needs_testing
  else if negativeWords.any (fun w => pyIn w message_lower) then .ruled_out
  else st

/-- Append a `{role, content, timestamp}` dict to the pregnancy history
(the pregnancy module appends raw dicts and does not touch `updated_at`). -/
def PregnancySession.appendTurn (s : PregnancySession) (role content now : String) :
    PregnancySession :=
  { s with conversation_history := s.conversation_history ++ [⟨role, content, now⟩] }

/-- `_call_pregnancy_model`: sends system prompt + history + the message; on a
transport error returns `None`; on HTTP success runs
`_detect_pregnancy_status` on the reply (a state mutation) and returns the
reply text. -/
def PregnancySession.callPregnancyModel (s : PregnancySession) (_user_message : String)
    (oracle : Option String) : PregnancySession × Option String :=
  match oracle with
  | none => (s, none)
  | some reply => ({ s with status := detectPregnancyStatus reply s.status }, some reply)

/-- `_summarize_gynecology_history`: "- بیمار: " plus the first 100 characters
of each nonempty user turn, at most the first 10 such lines, newline-joined. -/
def summarizeGynecologyHistory (history : List Message) : String :=
  let summary_parts := history.filterMap (fun m =>
    if m.role == "user" && !m.content.isEmpty then
      some ("- بیمار: " ++ pyTake m.content 100)
    else none)
  joinNewline (summary_parts.take 10)

/-- Symptom keywords of `_import_from_gynecology`. -/
def importSymptomWords : List String := ["تهوع", "حالت", "پستان", "خستگی", "تاخیر"]

/-- `str(value)` on a `patient_answers` value: a record yields its answer via
`value.get("answer", "")`, a bare boolean yields Python `str(bool)`. -/
def AnswerVal.text : AnswerVal → String
  | .entry a _ => a
  | .flag b => if b then "True" else "False"

/-- One iteration of the `_import_from_gynecology` extraction loop. -/
def importStep (d : PregnancyData) (p : String × AnswerVal) : PregnancyData :=
  let answer_text := p.2.text
  let d1 := if pyIn "lmp" (pyLower p.1) || pyIn "قاعدگی" answer_text then
      { d with lmp := some answer_text }
    else d
  if importSymptomWords.any (fun w => pyIn w answer_text) then
    { d1 with symptoms := d1.symptoms ++ [answer_text] }
  else d1

/-- `_import_from_gynecology`: record the source, extract LMP and symptom
answers in store order, and seed the log with one system-role summary turn. -/
def PregnancySession.importFromGynecology (s : PregnancySession) (gyn : SessionRecord)
    (now : String) : PregnancySession :=
  let s1 := { s with metadata := { s.metadata with
    transferred_from := some "gynecology_session",
    source_session_id := some gyn.session_id } }
  let s2 := { s1 with
    pregnancy_data := gyn.patient_answers.foldl importStep s1.pregnancy_data }
  let summary := summarizeGynecologyHistory gyn.conversation_history
  { s2 with conversation_history := s2.conversation_history ++
      [⟨"system", "خلاصه جلسه زنان:\n" ++ summary, now⟩] }

/-- `PregnancySession.__init__` (import runs when gynecology data is passed). -/
def mkPregnancySession (session_id : String) (gynecology_session_data : Option SessionRecord)
    (ollama_base_url pregnancy_model now : String) : PregnancySession :=
  let base : PregnancySession :=
    { session_id := session_id
      ollama_base_url := rstripSlash ollama_base_url
      pregnancy_model := pregnancy_model
      status := .suspected
      pregnancy_data := PregnancyData.empty
      conversation_history := []
      metadata := ⟨pregnancy_model, none, none⟩
      created_at := now
      updated_at := now }
  match gynecology_session_data with
  | some gyn => base.importFromGynecology gyn now
  | none => base

/-- `from_gynecology_session`: derived id `"pregnancy_" + source id`, then
`__init__` with the loaded gynecology record. -/
def PregnancySession.from_gynecology_session (gyn : SessionRecord)
    (ollama_base_url now : String) : PregnancySession :=
  mkPregnancySession ("pregnancy_" ++ gyn.session_id) (some gyn) ollama_base_url
    "deepseek-r1:1.5b" now

/-- The fallback text `start_pregnancy_consultation` returns when the backend
reply is falsy. -/
def startFallbackText : String := "خطا در دریافت سوال اول"

/-- `start_pregnancy_consultation`: always issues the opening backend call
with the fixed begin-assessment directive; appends the reply as an assistant
turn when truthy; returns the reply or the fallback text. -/
def PregnancySession.start_pregnancy_consultation (s : PregnancySession)
    (oracle : Option String) (now : String) : PregnancySession × String :=
  let p := s.callPregnancyModel
    "بر اساس اطلاعات دریافت شده از جلسه قبل، علائمی مشکوک به بارداری مشاهده شده است.\n        \nلطفاً برای ادامه بررسی، اولین سوال را پاسخ دهید." oracle
  let s2 := if optTruthy p.2 then p.1.appendTurn "assistant" (p.2.getD "") now else p.1
  (s2, if optTruthy p.2 then p.2.getD "" else startFallbackText)

/-- `PregnancySession.submit_answer`: append the patient turn, call the
backend with the answer, append the reply if truthy, refresh `updated_at`. -/
def PregnancySession.submit_answer (s : PregnancySession) (answer : String)
    (oracle : Option String) (now : String) : PregnancySession × Option String :=
  let s1 := s.appendTurn "user" answer now
  let p := s1.callPregnancyModel answer oracle
  let s2 := if optTruthy p.2 then p.1.appendTurn "assistant" (p.2.getD "") now else p.1
  ({ s2 with updated_at := now }, p.2)

/-- `add_lab_result`: store β-hCG when the test name matches, then ask the
backend for an interpretation (which, via `_call_pregnancy_model`, also runs
the status classification); no turn is appended and `updated_at` is untouched. -/
def PregnancySession.add_lab_result (s : PregnancySession)
    (test_name value unit : String) (oracle : Option String) :
    PregnancySession × String :=
  let s1 := if pyIn "hcg" (pyLower test_name) || pyIn "بتا" test_name then
      { s with pregnancy_data := { s.pregnancy_data with beta_hcg := some value } }
    else s
  let lab_message := "نتیجه آزمایش " ++ test_name ++ ": " ++ value ++ " " ++ unit
  let p := s1.callPregnancyModel
    ("لطفاً این نتیجه آزمایش را تفسیر کنید:\n" ++ lab_message) oracle
  (p.1, if optTruthy p.2 then p.2.getD "" else "خطا در تفسیر آزمایش")

/-- The report dict assembled by `generate_pregnancy_report`. -/
structure PregnancyReport where
  session_id : String
  status : String
  pregnancy_data : PregnancyData
  final_summary : Option String
  conversation_history : List Message
  metadata : PregMetadata
  created_at : String
  updated_at : String
deriving DecidableEq, Repr

/-- `generate_pregnancy_report`: one backend call for the final summary (again
running the status classification on the reply), then the report dict read off
the post-call state. -/
def PregnancySession.generate_pregnancy_report (s : PregnancySession)
    (oracle : Option String) : PregnancySession × PregnancyReport :=
  let p := s.callPregnancyModel
    "لطفاً یک گزارش جامع از وضعیت بارداری این بیمار تهیه کنید شامل:\n1. خلاصه علائم و یافته‌ها\n2. تفسیر نتایج آزمایش (در صورت وجود)\n3. احتمال بارداری\n4. توصیه‌های تخصصی\n5. اقدامات بعدی پیشنهادی" oracle
  (p.1,
    { session_id := p.1.session_id
      status := p.1.status.value
      pregnancy_data := p.1.pregnancy_data
      final_summary := p.2
      conversation_history := p.1.conversation_history
      metadata := p.1.metadata
      created_at := p.1.created_at
      updated_at := p.1.updated_at })

/-! ## Helper lemmas about the gynecology operations -/

theorem callOllama_eq_none (s : GynecologySession) (m : String) (o : Option String) :
    s.callOllama m o = none := by
  cases o <;> rfl

@[simp] theorem detectPregnancy_status (s : GynecologySession) :
    s.detectPregnancy.status = s.status := by
  simp only [GynecologySession.detectPregnancy]; split <;> rfl

@[simp] theorem detectPregnancy_answers (s : GynecologySession) :
    s.detectPregnancy.patient_answers = s.patient_answers := by
  simp only [GynecologySession.detectPregnancy]; split <;> rfl

@[simp] theorem detectPregnancy_history (s : GynecologySession) :
    s.detectPregnancy.conversation_history = s.conversation_history := by
  simp only [GynecologySession.detectPregnancy]; split <;> rfl

@[simp] theorem detectPregnancy_updated (s : GynecologySession) :
    s.detectPregnancy.updated_at = s.updated_at := by
  simp only [GynecologySession.detectPregnancy]; split <;> rfl

theorem detectPregnancy_susp (s : GynecologySession) :
    s.detectPregnancy.pregnancy_suspicion
      = (s.pregnancy_suspicion || pregnancyRuleFires s.patient_answers) := by
  simp only [GynecologySession.detectPregnancy]
  split <;> rename_i h <;> simp [h]

theorem submitContinue_eq (s : GynecologySession) (a now : String) (o : Option String) :
    s.submitContinue a now o = (s.addMessage "user" a now, .ok none) := by
  cases o <;> rfl

@[simp] theorem submitStored_status (s : GynecologySession) (k a now : String) :
    (s.submitStored k a now).status = s.status := by
  simp [GynecologySession.submitStored]

@[simp] theorem submitStored_answers (s : GynecologySession) (k a now : String) :
    (s.submitStored k a now).patient_answers
      = storeInsert s.patient_answers k (.entry a now) := by
  simp [GynecologySession.submitStored]

@[simp] theorem submitStored_history (s : GynecologySession) (k a now : String) :
    (s.submitStored k a now).conversation_history = s.conversation_history := by
  simp [GynecologySession.submitStored]

theorem submitStored_susp (s : GynecologySession) (k a now : String) :
    (s.submitStored k a now).pregnancy_suspicion
      = (s.pregnancy_suspicion || pregnancyRuleFires s.patient_answers) := by
  simp [GynecologySession.submitStored, detectPregnancy_susp]

/-- Whether, for a given answer and current year, the age gate fires. -/
def ageFails (a : String) (cy : Int) : Bool :=
  match parseIntPy a with
  | some year => decide (cy - year < MIN_GYNECOLOGY_AGE)
  | none => false

theorem ageFails_iff (a : String) (cy : Int) :
    ageFails a cy = true
      ↔ ∃ year, parseIntPy a = some year ∧ cy - year < MIN_GYNECOLOGY_AGE := by
  unfold ageFails
  cases hp : parseIntPy a <;> simp [hp]

theorem validateAge_eq (s : GynecologySession) (a : String) (cy : Int) :
    s.validateAge a cy =
      ((if ageFails a cy then { s with status := .suspended } else s),
       (if ageFails a cy then some ageReferralText else none)) := by
  unfold GynecologySession.validateAge ageFails
  cases hp : parseIntPy a
  · simp
  · simp only []
    split <;> rename_i h <;> simp [h]

theorem submitActive_eq (s : GynecologySession) (k a now : String) (cy : Int)
    (o : Option String) :
    s.submitActive k a now cy o =
      (if pyStartsWith (pyLower k) "q"
          && !truthyAns (storeLookup (s.submitStored k a now).patient_answers "_age_checked") then
        (if ageFails a cy then
          ({ s.submitStored k a now with
              status := SessionStatus.suspended,
              patient_answers :=
                storeInsert (s.submitStored k a now).patient_answers "_age_checked" (.flag true)
            }.addMessage "assistant" ageReferralText now, .ok (some ageReferralText))
        else
          ({ s.submitStored k a now with
              patient_answers :=
                storeInsert (s.submitStored k a now).patient_answers "_age_checked" (.flag true)
            }.addMessage "user" a now, .ok none))
      else
        ((s.submitStored k a now).addMessage "user" a now, .ok none)) := by
  simp only [GynecologySession.submitActive, validateAge_eq]
  split
  · cases hAF : ageFails a cy <;> simp [hAF, submitContinue_eq]
  · simp [submitContinue_eq]

theorem submit_answer_active (s : GynecologySession) (k a now : String) (cy : Int)
    (o : Option String) (h : s.status = SessionStatus.active) :
    s.submit_answer k a now cy o = s.submitActive k a now cy o := by
  simp [GynecologySession.submit_answer, h]

/-! ## Helper lemmas about the answer store -/

theorem storeLookup_insert_self (st : AnswerStore) (k : String) (v : AnswerVal) :
    storeLookup (storeInsert st k v) k = some v := by
  induction st with
  | nil => simp [storeInsert, storeLookup]
  | cons p rest ih =>
      simp only [storeInsert]
      split
      · simp [storeLookup]
      · rename_i h
        unfold storeLookup
        rw [List.find?_cons_of_neg _ (by simpa using h)]
        exact ih

theorem storeLookup_insert_ne (st : AnswerStore) (k k' : String) (v : AnswerVal)
    (h : k' ≠ k) : storeLookup (storeInsert st k v) k' = storeLookup st k' := by
  induction st with
  | nil =>
      unfold storeInsert storeLookup
      rw [List.find?_cons_of_neg _ (by simpa using Ne.symm h)]
  | cons p rest ih =>
      simp only [storeInsert]
      split
      · rename_i hp
        have hp' : p.1 = k := by simpa using hp
        unfold storeLookup
        rw [List.find?_cons_of_neg _ (by simpa using Ne.symm h),
          List.find?_cons_of_neg _ (by simp [hp', Ne.symm h])]
      · by_cases hk' : p.1 = k'
        · unfold storeLookup
          rw [List.find?_cons_of_pos _ (by simpa using hk'),
            List.find?_cons_of_pos _ (by simpa using hk')]
        · unfold storeLookup
          rw [List.find?_cons_of_neg _ (by simpa using hk'),
            List.find?_cons_of_neg _ (by simpa using hk')]
          exact ih

theorem storeInsert_keys_mem (st : AnswerStore) (k : String) (v : AnswerVal) :
    ∀ x ∈ (storeInsert st k v).map (·.1), x = k ∨ x ∈ st.map (·.1) := by
  induction st with
  | nil => simp [storeInsert]
  | cons p rest ih =>
      intro x hx
      simp only [storeInsert] at hx
      split at hx
      · simp only [List.map_cons, List.mem_cons] at hx
        rcases hx with h | h
        · exact Or.inl h
        · exact Or.inr (by simp [h])
      · simp only [List.map_cons, List.mem_cons] at hx
        rcases hx with h | h
        · exact Or.inr (by simp [h])
        · rcases ih x h with h' | h'
          · exact Or.inl h'
          · exact Or.inr (by simp [h'])

theorem storeInsert_nodup (st : AnswerStore) (k : String) (v : AnswerVal)
    (h : keysNodup st) : keysNodup (storeInsert st k v) := by
  induction st with
  | nil => simp [storeInsert, keysNodup]
  | cons p rest ih =>
      unfold keysNodup at h ⊢
      simp only [List.map_cons, List.nodup_cons] at h
      simp only [storeInsert]
      split
      · rename_i hp
        have hp' : p.1 = k := by simpa using hp
        simp only [List.map_cons, List.nodup_cons]
        exact ⟨by rw [← hp']; exact h.1, h.2⟩
      · rename_i hp
        have hp' : p.1 ≠ k := by simpa using hp
        simp only [List.map_cons, List.nodup_cons]
        refine ⟨fun hc => ?_, ih h.2⟩
        rcases storeInsert_keys_mem rest k v p.1 hc with h' | h'
        · exact hp' h'
        · exact h.1 h'

theorem storeInsert_insert (st : AnswerStore) (k : String) (v1 v2 : AnswerVal) :
    storeInsert (storeInsert st k v1) k v2 = storeInsert st k v2 := by
  induction st with
  | nil => simp [storeInsert]
  | cons p rest ih =>
      simp only [storeInsert]
      split
      · simp [storeInsert]
      · rename_i hp
        simp only [storeInsert]
        rw [if_neg hp, ih]

theorem countKey_zero_of_not_mem (st : AnswerStore) (k : String)
    (h : k ∉ st.map (·.1)) : countKey st k = 0 := by
  induction st with
  | nil => rfl
  | cons p rest ih =>
      simp only [List.map_cons, List.mem_cons, not_or] at h
      unfold countKey
      rw [List.filter_cons_of_neg (by simpa using fun hc : p.1 = k => h.1 hc.symm)]
      exact ih h.2

theorem countKey_le_one_of_nodup (st : AnswerStore) (k : String)
    (h : keysNodup st) : countKey st k ≤ 1 := by
  induction st with
  | nil => simp [countKey]
  | cons p rest ih =>
      unfold keysNodup at h
      simp only [List.map_cons, List.nodup_cons] at h
      by_cases hp : p.1 = k
      · unfold countKey
        rw [List.filter_cons_of_pos (by simpa using hp)]
        have h0 : countKey rest k = 0 :=
          countKey_zero_of_not_mem rest k (by rw [← hp]; exact h.1)
        unfold countKey at h0
        simp [h0]
      · unfold countKey
        rw [List.filter_cons_of_neg (by simpa using hp)]
        exact ih h.2

/-! ## Projection lemmas for the remaining operations -/

@[simp] theorem addMessage_status (s : GynecologySession) (r c n : String) :
    (s.addMessage r c n).status = s.status := rfl

@[simp] theorem addMessage_answers (s : GynecologySession) (r c n : String) :
    (s.addMessage r c n).patient_answers = s.patient_answers := rfl

@[simp] theorem addMessage_susp (s : GynecologySession) (r c n : String) :
    (s.addMessage r c n).pregnancy_suspicion = s.pregnancy_suspicion := rfl

@[simp] theorem addMessage_history (s : GynecologySession) (r c n : String) :
    (s.addMessage r c n).conversation_history
      = s.conversation_history ++ [⟨r, c, n⟩] := rfl

@[simp] theorem complete_answers (s : GynecologySession) (now : String) :
    (s.complete_session now).patient_answers = s.patient_answers := rfl

@[simp] theorem suspend_answers (s : GynecologySession) (now : String) :
    (s.suspend_session now).patient_answers = s.patient_answers := rfl

@[simp] theorem switchModel_answers (s : GynecologySession) (m now : String) :
    (s.switch_model m now).patient_answers = s.patient_answers := rfl

@[simp] theorem complete_susp (s : GynecologySession) (now : String) :
    (s.complete_session now).pregnancy_suspicion = s.pregnancy_suspicion := rfl

@[simp] theorem suspend_susp (s : GynecologySession) (now : String) :
    (s.suspend_session now).pregnancy_suspicion = s.pregnancy_suspicion := rfl

@[simp] theorem switchModel_susp (s : GynecologySession) (m now : String) :
    (s.switch_model m now).pregnancy_suspicion = s.pregnancy_suspicion := rfl

@[simp] theorem switchModel_status (s : GynecologySession) (m now : String) :
    (s.switch_model m now).status = s.status := rfl

theorem submit_answer_not_active (s : GynecologySession) (k a now : String) (cy : Int)
    (o : Option String) (h : s.status ≠ SessionStatus.active) :
    s.submit_answer k a now cy o
      = (s, .error ("Session is not active. Status: " ++ s.status.value)) := by
  simp [GynecologySession.submit_answer, h]

/-! ## Behaviour of `submit_answer` on an active session -/

theorem submitActive_susp (s : GynecologySession) (k a now : String) (cy : Int)
    (o : Option String) :
    ((s.submitActive k a now cy o).1).pregnancy_suspicion
      = (s.pregnancy_suspicion || pregnancyRuleFires s.patient_answers) := by
  rw [submitActive_eq]
  split
  · split <;> simp [submitStored_susp]
  · simp [submitStored_susp]

theorem submitActive_answers_gate (s : GynecologySession) (k a now : String) (cy : Int)
    (o : Option String)
    (hb : (pyStartsWith (pyLower k) "q"
      && !truthyAns (storeLookup (storeInsert s.patient_answers k (.entry a now))
           "_age_checked")) = true) :
    ((s.submitActive k a now cy o).1).patient_answers
      = storeInsert (storeInsert s.patient_answers k (.entry a now))
          "_age_checked" (.flag true) := by
  rw [submitActive_eq]
  rw [if_pos (by simpa [submitStored_answers] using hb)]
  split <;> simp [submitStored_answers]

theorem submitActive_answers_nogate (s : GynecologySession) (k a now : String) (cy : Int)
    (o : Option String)
    (hb : (pyStartsWith (pyLower k) "q"
      && !truthyAns (storeLookup (storeInsert s.patient_answers k (.entry a now))
           "_age_checked")) = false) :
    ((s.submitActive k a now cy o).1).patient_answers
      = storeInsert s.patient_answers k (.entry a now) := by
  rw [submitActive_eq]
  rw [if_neg (by simp [submitStored_answers, hb])]
  simp [submitStored_answers]

theorem submitActive_status_gate (s : GynecologySession) (k a now : String) (cy : Int)
    (o : Option String)
    (hb : (pyStartsWith (pyLower k) "q"
      && !truthyAns (storeLookup (storeInsert s.patient_answers k (.entry a now))
           "_age_checked")) = true) :
    ((s.submitActive k a now cy o).1).status
      = (if ageFails a cy then SessionStatus.suspended else s.status) := by
  rw [submitActive_eq]
  rw [if_pos (by simpa [submitStored_answers] using hb)]
  split <;> rename_i h <;> simp [h]

theorem submitActive_status_nogate (s : GynecologySession) (k a now : String) (cy : Int)
    (o : Option String)
    (hb : (pyStartsWith (pyLower k) "q"
      && !truthyAns (storeLookup (storeInsert s.patient_answers k (.entry a now))
           "_age_checked")) = false) :
    ((s.submitActive k a now cy o).1).status = s.status := by
  rw [submitActive_eq]
  rw [if_neg (by simp [submitStored_answers, hb])]
  simp

theorem startsWithQ_ne_age (k : String) (h : pyStartsWith (pyLower k) "q" = true) :
    k ≠ "_age_checked" := by
  intro he
  subst he
  exact absurd h (by decide)

/-! ## One-shot age check: flag persistence along traces -/

theorem checked_truthy_insert_entry (st : AnswerStore) (k a now : String)
    (h : truthyAns (storeLookup st "_age_checked") = true) :
    truthyAns (storeLookup (storeInsert st k (.entry a now)) "_age_checked") = true := by
  by_cases hk : k = "_age_checked"
  · subst hk
    rw [storeLookup_insert_self]
    rfl
  · rw [storeLookup_insert_ne st k "_age_checked" _ (fun he => hk he.symm)]
    exact h

theorem checked_persists (op : GynOp) (s : GynecologySession)
    (h : truthyAns (storeLookup s.patient_answers "_age_checked") = true) :
    truthyAns (storeLookup (op.apply s).patient_answers "_age_checked") = true := by
  cases op with
  | submit k a now cy o =>
      by_cases hs : s.status = SessionStatus.active
      · have hfalse : (pyStartsWith (pyLower k) "q"
            && !truthyAns (storeLookup (storeInsert s.patient_answers k (.entry a now))
                 "_age_checked")) = false := by
          rw [checked_truthy_insert_entry s.patient_answers k a now h]
          simp
        simp only [GynOp.apply]
        rw [submit_answer_active _ _ _ _ _ _ hs,
          submitActive_answers_nogate _ _ _ _ _ _ hfalse]
        exact checked_truthy_insert_entry s.patient_answers k a now h
      · simp only [GynOp.apply]
        rw [submit_answer_not_active _ _ _ _ _ _ hs]
        exact h
  | complete now => simpa using h
  | suspend now => simpa using h
  | switchModel m now => simpa using h

theorem evalsAge_sets (s : GynecologySession) (k a now : String) (cy : Int)
    (o : Option String) (h : evalsAge s k = true) :
    truthyAns (storeLookup ((GynOp.submit k a now cy o).apply s).patient_answers
      "_age_checked") = true := by
  unfold evalsAge at h
  simp only [Bool.and_eq_true, beq_iff_eq, Bool.not_eq_true'] at h
  obtain ⟨⟨hs, hq⟩, hc⟩ := h
  have hkne : k ≠ "_age_checked" := startsWithQ_ne_age k hq
  have hl : storeLookup (storeInsert s.patient_answers k (.entry a now)) "_age_checked"
      = storeLookup s.patient_answers "_age_checked" :=
    storeLookup_insert_ne _ _ _ _ (fun he => hkne he.symm)
  have hb : (pyStartsWith (pyLower k) "q"
      && !truthyAns (storeLookup (storeInsert s.patient_answers k (.entry a now))
           "_age_checked")) = true := by
    rw [hl, hc, hq]
    rfl
  simp only [GynOp.apply]
  rw [submit_answer_active _ _ _ _ _ _ hs, submitActive_answers_gate _ _ _ _ _ _ hb,
    storeLookup_insert_self]
  rfl

theorem checked_no_evals (ops : List GynOp) (s : GynecologySession)
    (h : truthyAns (storeLookup s.patient_answers "_age_checked") = true) :
    countAgeEvals s ops = 0 := by
  induction ops generalizing s with
  | nil => rfl
  | cons op rest ih =>
      have hrest := ih (op.apply s) (checked_persists op s h)
      cases op with
      | submit k a now cy o =>
          have : evalsAge s k = false := by
            unfold evalsAge
            rw [h]
            simp
          simp [countAgeEvals, this, hrest]
      | complete now => simp [countAgeEvals, hrest]
      | suspend now => simp [countAgeEvals, hrest]
      | switchModel m now => simp [countAgeEvals, hrest]

theorem countAgeEvals_le_one (s : GynecologySession) (ops : List GynOp) :
    countAgeEvals s ops ≤ 1 := by
  induction ops generalizing s with
  | nil => simp [countAgeEvals]
  | cons op rest ih =>
      cases op with
      | submit k a now cy o =>
          by_cases he : evalsAge s k = true
          · have h0 : countAgeEvals ((GynOp.submit k a now cy o).apply s) rest = 0 :=
              checked_no_evals rest _ (evalsAge_sets s k a now cy o he)
            simp [countAgeEvals, he, h0]
          · have he' : evalsAge s k = false := by simpa using he
            simpa [countAgeEvals, he'] using ih ((GynOp.submit k a now cy o).apply s)
      | complete now => simpa [countAgeEvals] using ih _
      | suspend now => simpa [countAgeEvals] using ih _
      | switchModel m now => simpa [countAgeEvals] using ih _

/-! ## Suspicion monotonicity along traces -/

theorem apply_susp_mono (op : GynOp) (s : GynecologySession)
    (h : s.pregnancy_suspicion = true) : (op.apply s).pregnancy_suspicion = true := by
  cases op with
  | submit k a now cy o =>
      by_cases hs : s.status = SessionStatus.active
      · simp only [GynOp.apply]
        rw [submit_answer_active _ _ _ _ _ _ hs, submitActive_susp, h]
        rfl
      · simp only [GynOp.apply]
        rw [submit_answer_not_active _ _ _ _ _ _ hs]
        exact h
  | complete now => simpa using h
  | suspend now => simpa using h
  | switchModel m now => simpa using h

/-! ## Session creation -/

theorem mkSession_history (sid url model now : String) (o : Option String) :
    (mkGynecologySession sid url model now o).conversation_history = [] := by
  simp [mkGynecologySession, GynecologySession.initializeConversation,
    callOllama_eq_none, optTruthy]

theorem mkSession_current_question (sid url model now : String) (o : Option String) :
    (mkGynecologySession sid url model now o).get_current_question = none := by
  simp [GynecologySession.get_current_question, mkSession_history]

/-! ## Concrete fixtures used by counterexamples and witnesses -/

/-- A freshly created gynecology session (status `ACTIVE`, empty history). -/
def baseSession : GynecologySession :=
  mkGynecologySession "s1" "http://localhost:11434" "gemma3-medical" "t0" none

/-- `baseSession` after `suspend_session`. -/
def suspSession : GynecologySession :=
  baseSession.suspend_session "t1"

/-- `baseSession` with suspicion already raised. -/
def suspiciousSession : GynecologySession :=
  { mkGynecologySession "m1" "http://localhost:11434" "gemma3-medical" "t0" none with
    pregnancy_suspicion := true }

/-- Fresh session for the two-answer pregnancy-rule scenario. -/
def s0C1 : GynecologySession :=
  mkGynecologySession "c1" "http://localhost:11434" "gemma3-medical" "t0" none

/-- After submitting the symptom keyword "تهوع" under `q1`. -/
def s1C1 : GynecologySession := (s0C1.submit_answer "q1" "تهوع" "t1" 2025 none).1

/-- After additionally submitting the duration phrase "دو ماه" under `q2`:
the stored answers now contain both rule halves. -/
def s2C1 : GynecologySession := (s1C1.submit_answer "q2" "دو ماه" "t2" 2025 none).1

/-- Fresh session for the round-trip scenario. -/
def s0C2 : GynecologySession :=
  mkGynecologySession "p1" "http://localhost:11434" "gemma3-medical" "t0" none

/-- After an age-gate-firing answer: suspended, with the referral warning as
its one conversation turn. -/
def s1C2 : GynecologySession := (s0C2.submit_answer "q1" "2015" "t1" 2025 none).1

/-- `save` then `load` of `s1C2` (serialize to the persisted record and
deserialize it back). -/
def loadedC2 : Except String GynecologySession :=
  GynecologySession.from_dict s1C2.to_dict "http://localhost:11434" "t2" none

/-- A persisted gynecology record with one patient turn and one answer, fed to
the transfer operator. -/
def gynRecC7 : SessionRecord :=
  { session_id := "g1", status := "suspended",
    patient_answers := [("q1", .entry "تهوع" "t0")],
    conversation_history := [⟨"user", "سلام", "t0"⟩],
    pregnancy_suspicion := false,
    metadata := ⟨"gemma3-medical", "http://localhost:11434", none⟩,
    created_at := "t0", updated_at := "t0" }

/-- The specialized session produced by the transfer: its log holds exactly
the inherited summary system turn, so it is non-empty. -/
def pregC7 : PregnancySession :=
  PregnancySession.from_gynecology_session gynRecC7 "http://localhost:11434" "t1"

/-- A caller-created specialized session in the initial `SUSPECTED` state. -/
def preg0 : PregnancySession :=
  mkPregnancySession "p0" none "http://localhost:11434" "deepseek-r1:1.5b" "t0"

/-- A stored active gynecology record for the HTTP message endpoint. -/
def storedC9 : SessionRecord :=
  { session_id := "g9", status := "active", patient_answers := [],
    conversation_history := [], pregnancy_suspicion := false,
    metadata := ⟨"m", "u", none⟩, created_at := "t0", updated_at := "t0" }

/-- The record the endpoint saves for `storedC9` after one message. -/
def savedC9 : SessionRecord :=
  { session_id := "g9", status := "active",
    patient_answers := [("free_text", .entry "hi" "t1")],
    conversation_history := [⟨"user", "hi", "t1"⟩],
    pregnancy_suspicion := false,
    metadata := ⟨"m", "u", none⟩, created_at := "t0", updated_at := "t1" }

/-! ## Claim theorems -/

/-- Claim C1, counterexample: after the two submissions of the spec scenario
the stored answers contain both a configured symptom keyword and a configured
duration phrase (the rule over the store fires), yet `pregnancy_suspicion` is
still `false` when the second `submit_answer` call returns — because the
detection pass runs before the new answer is stored. -/
theorem submit_checks_before_store_cex :
    pregnancyRuleFires s2C1.patient_answers = true
    ∧ s2C1.pregnancy_suspicion = false := by
  exact ⟨by decide, by decide⟩

/-- Claim C1, amended: `submit_answer` on an active session runs the
rule-engine pass over the answers as stored *before* this call's write, so the
resulting suspicion is the monotone OR of the old flag with the rule evaluated
on the pre-call store; suspicion therefore becomes true only on the call after
both rule halves are present in the store. -/
theorem submit_detect_runs_before_store (s : GynecologySession) (k a now : String)
    (cy : Int) (o : Option String) (h : s.status = SessionStatus.active) :
    ((s.submit_answer k a now cy o).1).pregnancy_suspicion
      = (s.pregnancy_suspicion || pregnancyRuleFires s.patient_answers) := by
  rw [submit_answer_active _ _ _ _ _ _ h]
  exact submitActive_susp _ _ _ _ _ _

/-- Witness for C1's amended theorem: the third submission of the scenario,
applied to `s2C1` whose stored answers already satisfy the rule. -/
theorem submit_detect_runs_before_store_witness :
    s2C1.status = SessionStatus.active
    ∧ ((s2C1.submit_answer "q3" "بله" "t3" 2025 none).1).pregnancy_suspicion
        = (s2C1.pregnancy_suspicion || pregnancyRuleFires s2C1.patient_answers) :=
  ⟨by decide, submit_detect_runs_before_store s2C1 "q3" "بله" "t3" 2025 none (by decide)⟩

/-- Claim C3: `submit_answer` on a suspended or completed session fails with
the invalid-state `ValueError` and returns the session exactly as it was —
answers, log, suspicion and `updated_at` all unchanged. -/
theorem submit_answer_terminal_invalid_state (s : GynecologySession)
    (k a now : String) (cy : Int) (o : Option String)
    (h : s.status = SessionStatus.suspended ∨ s.status = SessionStatus.completed) :
    s.submit_answer k a now cy o
      = (s, .error ("Session is not active. Status: " ++ s.status.value)) := by
  rcases h with h | h <;> exact submit_answer_not_active _ _ _ _ _ _ (by simp [h])

/-- Witness for C3 at a concrete suspended session. -/
theorem submit_answer_terminal_invalid_state_witness :
    (suspSession.status = SessionStatus.suspended
      ∨ suspSession.status = SessionStatus.completed)
    ∧ suspSession.submit_answer "q1" "x" "t2" 2025 none
        = (suspSession, .error ("Session is not active. Status: "
            ++ suspSession.status.value)) :=
  ⟨Or.inl (by decide),
    submit_answer_terminal_invalid_state suspSession "q1" "x" "t2" 2025 none
      (Or.inl (by decide))⟩

/-- Claim C5, counterexample: `complete_session` forces `COMPLETED`
unconditionally, so a `SUSPENDED` session — supposedly terminal — moves to a
different state. -/
theorem complete_escapes_suspended_cex :
    suspSession.status = SessionStatus.suspended
    ∧ (suspSession.complete_session "t2").status ≠ SessionStatus.suspended
    ∧ (suspSession.complete_session "t2").status = SessionStatus.completed := by
  exact ⟨by decide, by decide, by decide⟩

/-- Claim C5, amended: on a suspended or completed session, `submit_answer`
fails and changes nothing and `switch_model` preserves the status; but
`complete_session` and `suspend_session` force the status unconditionally, so
each can move the session between the two terminal states (while being
idempotent on its own target state). -/
theorem terminal_states_amended (s : GynecologySession)
    (k a now now2 now3 now4 m : String) (cy : Int) (o : Option String)
    (h : s.status = SessionStatus.suspended ∨ s.status = SessionStatus.completed) :
    s.submit_answer k a now cy o
        = (s, .error ("Session is not active. Status: " ++ s.status.value))
    ∧ (s.switch_model m now2).status = s.status
    ∧ (s.complete_session now3).status = SessionStatus.completed
    ∧ (s.suspend_session now4).status = SessionStatus.suspended := by
  refine ⟨?_, rfl, rfl, rfl⟩
  rcases h with h | h <;> exact submit_answer_not_active _ _ _ _ _ _ (by simp [h])

/-- Witness for C5's amended theorem at a concrete suspended session. -/
theorem terminal_states_amended_witness :
    (suspSession.status = SessionStatus.suspended
      ∨ suspSession.status = SessionStatus.completed)
    ∧ (suspSession.complete_session "t3").status = SessionStatus.completed :=
  ⟨Or.inl (by decide),
    (terminal_states_amended suspSession "q1" "x" "t2" "t2" "t3" "t4" "m" 2025 none
      (Or.inl (by decide))).2.2.1⟩

/-- Claim C6: `pregnancy_suspicion` is monotonic — once true, no sequence of
further operations (`submit_answer`, `complete_session`, `suspend_session`,
`switch_model`) ever makes it false again. -/
theorem pregnancy_suspicion_monotone (s : GynecologySession) (ops : List GynOp)
    (h : s.pregnancy_suspicion = true) :
    (applyOps s ops).pregnancy_suspicion = true := by
  induction ops generalizing s with
  | nil => exact h
  | cons op rest ih => exact ih _ (apply_susp_mono op s h)

/-- Witness for C6: a suspicious session driven through a submit and a close. -/
theorem pregnancy_suspicion_monotone_witness :
    suspiciousSession.pregnancy_suspicion = true
    ∧ (applyOps suspiciousSession
        [GynOp.submit "q1" "نه" "t1" 2025 none,
         GynOp.complete "t2"]).pregnancy_suspicion = true :=
  ⟨by decide, pregnancy_suspicion_monotone suspiciousSession _ (by decide)⟩

/-- Claim C2: the save/load round trip does not reproduce the entity —
`from_dict` restores `session_id`, `status`, the answers, the suspicion flag
and both timestamps, but the statement restoring `conversation_history`
(gynecology_session.py lines 351-353) is commented out and syntactically
broken, so a session with a non-empty log (here: suspended by the age gate
with its referral warning turn) loads back with an empty log. -/
theorem roundtrip_drops_conversation_history :
    s1C2.conversation_history ≠ []
    ∧ loadedC2.toOption.map (·.conversation_history) = some []
    ∧ loadedC2.toOption.map (·.session_id) = some s1C2.session_id
    ∧ loadedC2.toOption.map (·.status) = some s1C2.status
    ∧ loadedC2.toOption.map (·.patient_answers) = some s1C2.patient_answers
    ∧ loadedC2.toOption.map (·.pregnancy_suspicion) = some s1C2.pregnancy_suspicion
    ∧ loadedC2.toOption.map (·.created_at) = some s1C2.created_at
    ∧ loadedC2.toOption.map (·.updated_at) = some s1C2.updated_at := by
  exact ⟨by decide, by decide, by decide, by decide, by decide, by decide,
    by decide, by decide⟩

/-- Claim C7, counterexample: on a transferred session whose log already holds
the inherited summary turn, `start_pregnancy_consultation` still queries the
backend and appends its reply, so the session is not returned unchanged. -/
theorem start_requeries_backend_cex :
    pregC7.conversation_history ≠ []
    ∧ (pregC7.start_pregnancy_consultation (some "سوال اول") "t2").1 ≠ pregC7
    ∧ ((pregC7.start_pregnancy_consultation (some "سوال اول") "t2").1).conversation_history.length
        = pregC7.conversation_history.length + 1 := by
  exact ⟨by decide, by decide, by decide⟩

/-- Claim C7, amended: `start_pregnancy_consultation` always issues the
opening backend call, whatever the log contains: a truthy reply is appended as
a new assistant turn and returned (and the reply is classified into the status
field), an absent or empty reply leaves the log unchanged and returns the
fixed fallback text. -/
theorem start_always_calls_backend (p : PregnancySession) (o : Option String)
    (now : String) :
    ((p.start_pregnancy_consultation o now).1).conversation_history
      = p.conversation_history
        ++ (if optTruthy o then [⟨"assistant", o.getD "", now⟩] else [])
    ∧ ((p.start_pregnancy_consultation o now).1).status
      = (match o with
          | some r => detectPregnancyStatus r p.status
          | none => p.status)
    ∧ (p.start_pregnancy_consultation o now).2
      = (if optTruthy o then o.getD "" else startFallbackText) := by
  cases o with
  | none =>
      refine ⟨?_, rfl, rfl⟩
      simp [PregnancySession.start_pregnancy_consultation,
        PregnancySession.callPregnancyModel, optTruthy]
  | some r =>
      by_cases hr : r.isEmpty = true <;>
        simp [PregnancySession.start_pregnancy_consultation,
          PregnancySession.callPregnancyModel, PregnancySession.appendTurn,
          optTruthy, hr]

/-- Claim C8: `_call_ollama` returns nothing on every path (its success branch
never returns the computed reply), hence a freshly created session has an
empty log and no current question, and every active-session `submit_answer`
either returns the age warning (appending only that assistant turn) or
returns no next question and appends only the patient turn — whatever the
backend replied. -/
theorem call_ollama_returns_nothing :
    (∀ (s : GynecologySession) (m : String) (o : Option String),
        s.callOllama m o = none)
    ∧ (∀ (sid url model now : String) (o : Option String),
        (mkGynecologySession sid url model now o).conversation_history = []
        ∧ (mkGynecologySession sid url model now o).get_current_question = none)
    ∧ (∀ (s : GynecologySession) (k a now : String) (cy : Int) (o : Option String),
        s.status = SessionStatus.active →
        ((s.submit_answer k a now cy o).2 = .ok none
          ∧ ((s.submit_answer k a now cy o).1).conversation_history
              = s.conversation_history ++ [⟨"user", a, now⟩])
        ∨ (∃ w, (s.submit_answer k a now cy o).2 = .ok (some w)
          ∧ ((s.submit_answer k a now cy o).1).conversation_history
              = s.conversation_history ++ [⟨"assistant", w, now⟩])) := by
  refine ⟨callOllama_eq_none,
    fun sid url model now o =>
      ⟨mkSession_history sid url model now o, mkSession_current_question sid url model now o⟩,
    ?_⟩
  intro s k a now cy o hs
  rw [submit_answer_active _ _ _ _ _ _ hs, submitActive_eq]
  split
  · split
    · right
      exact ⟨ageReferralText, rfl, by simp [submitStored_history]⟩
    · left
      exact ⟨rfl, by simp [submitStored_history]⟩
  · left
    exact ⟨rfl, by simp [submitStored_history]⟩

/-- Witness for C8's submit clause at a concrete active session and
non-age-typed key. -/
theorem call_ollama_returns_nothing_witness :
    baseSession.status = SessionStatus.active
    ∧ (((baseSession.submit_answer "x1" "hello" "t1" 2025 none).2 = .ok none
        ∧ ((baseSession.submit_answer "x1" "hello" "t1" 2025 none).1).conversation_history
            = baseSession.conversation_history ++ [⟨"user", "hello", "t1"⟩])
      ∨ (∃ w, (baseSession.submit_answer "x1" "hello" "t1" 2025 none).2 = .ok (some w)
        ∧ ((baseSession.submit_answer "x1" "hello" "t1" 2025 none).1).conversation_history
            = baseSession.conversation_history ++ [⟨"assistant", w, "t1"⟩])) :=
  ⟨by decide,
    call_ollama_returns_nothing.2.2 baseSession "x1" "hello" "t1" 2025 none (by decide)⟩

/-- Claim C10: every backend call of a specialized session runs the keyword
classification on the reply, so report generation and lab-result
interpretation can change the status with no answer submitted: a confirming
reply to `generate_pregnancy_report` moves `preg0` from `SUSPECTED` to
`CONFIRMED`, and a testing-keyword reply to `add_lab_result` moves it to
`NEEDS_TESTING` while the log stays untouched. -/
theorem report_and_lab_reclassify_status :
    (∀ (p : PregnancySession) (m r : String),
        ((p.callPregnancyModel m (some r)).1).status = detectPregnancyStatus r p.status)
    ∧ preg0.status = PregnancyStatus.suspected
    ∧ ((preg0.generate_pregnancy_report (some "بارداری تایید شد")).1).status
        = PregnancyStatus.confirmed
    ∧ ((preg0.add_lab_result "Beta hCG" "1200" "mIU/mL"
          (some "نیاز به آزمایش بیشتر")).1).status = PregnancyStatus.needs_testing
    ∧ ((preg0.add_lab_result "Beta hCG" "1200" "mIU/mL"
          (some "نیاز به آزمایش بیشتر")).1).conversation_history
        = preg0.conversation_history := by
  exact ⟨fun p m r => rfl, by decide, by decide, by decide, by decide⟩

/-- Claim C4: when the age rule is evaluated (active session, `q`-prefixed
key, one-shot flag not yet set) the gate fires — the session is suspended —
iff the answer parses as a birth year with `currentYear - year` strictly below
the configured minimum; a non-parsing answer never changes the status; and
along any operation sequence the age rule is evaluated at most once. -/
theorem age_gate_spec :
    (∀ (s : GynecologySession) (k a now : String) (cy : Int) (o : Option String),
        s.status = SessionStatus.active →
        pyStartsWith (pyLower k) "q" = true →
        truthyAns (storeLookup s.patient_answers "_age_checked") = false →
        (((s.submit_answer k a now cy o).1).status = SessionStatus.suspended
          ↔ ∃ year, parseIntPy a = some year ∧ cy - year < MIN_GYNECOLOGY_AGE))
    ∧ (∀ (s : GynecologySession) (k a now : String) (cy : Int) (o : Option String),
        s.status = SessionStatus.active → parseIntPy a = none →
        ((s.submit_answer k a now cy o).1).status = SessionStatus.active)
    ∧ (∀ (s : GynecologySession) (ops : List GynOp), countAgeEvals s ops ≤ 1) := by
  refine ⟨?_, ?_, fun s ops => countAgeEvals_le_one s ops⟩
  · intro s k a now cy o hs hq h3
    rw [submit_answer_active _ _ _ _ _ _ hs]
    have hkne : k ≠ "_age_checked" := startsWithQ_ne_age k hq
    have hl : storeLookup (storeInsert s.patient_answers k (.entry a now)) "_age_checked"
        = storeLookup s.patient_answers "_age_checked" :=
      storeLookup_insert_ne _ _ _ _ (fun he => hkne he.symm)
    have hb : (pyStartsWith (pyLower k) "q"
        && !truthyAns (storeLookup (storeInsert s.patient_answers k (.entry a now))
             "_age_checked")) = true := by
      rw [hl, h3, hq]
      rfl
    rw [submitActive_status_gate _ _ _ _ _ _ hb]
    by_cases hAF : ageFails a cy = true
    · rw [if_pos hAF]
      exact iff_of_true rfl ((ageFails_iff a cy).mp hAF)
    · rw [if_neg hAF, hs]
      exact iff_of_false (by decide) (fun hex => hAF ((ageFails_iff a cy).mpr hex))
  · intro s k a now cy o hs hp
    rw [submit_answer_active _ _ _ _ _ _ hs]
    have hAF : ageFails a cy = false := by
      unfold ageFails
      rw [hp]
    by_cases hb : (pyStartsWith (pyLower k) "q"
        && !truthyAns (storeLookup (storeInsert s.patient_answers k (.entry a now))
             "_age_checked")) = true
    · rw [submitActive_status_gate _ _ _ _ _ _ hb, if_neg (by simp [hAF]), hs]
    · rw [submitActive_status_nogate _ _ _ _ _ _ (by simpa using hb), hs]

/-- Witness for C4: a fresh session, a `q`-prefixed key and the birth year
2015 against current year 2025 (age 10 < 12) — the gate fires. -/
theorem age_gate_spec_witness :
    (mkGynecologySession "w4" "u" "m" "t0" none).status = SessionStatus.active
    ∧ (((mkGynecologySession "w4" "u" "m" "t0" none).submit_answer
          "q1" "2015" "t1" 2025 none).1).status = SessionStatus.suspended :=
  ⟨by decide,
    (age_gate_spec.1 (mkGynecologySession "w4" "u" "m" "t0" none)
        "q1" "2015" "t1" 2025 none (by decide) (by decide) (by decide)).mpr
      ⟨2015, by decide, by decide⟩⟩

/-- Any successful run of the message endpoint saves an answer store equal to
the stored one updated at the fixed key `"free_text"`. -/
theorem gynecology_message_answers (stored : SessionRecord) (msg now : String)
    (cy : Int) (o : Option String) (r' : SessionRecord) (out : Option String × Bool)
    (heq : gynecology_message stored msg now cy o = .ok (r', out)) :
    r'.patient_answers = storeInsert stored.patient_answers "free_text" (.entry msg now) := by
  unfold gynecology_message at heq
  unfold GynecologySession.from_dict at heq
  cases hp : SessionStatus.parse stored.status with
  | none =>
      rw [hp] at heq
      simp at heq
  | some st =>
      rw [hp] at heq
      cases st with
      | active =>
          simp only [] at heq
          rw [submit_answer_active _ _ _ _ _ _ rfl, submitActive_eq] at heq
          have hq0 : pyStartsWith (pyLower "free_text") "q" = false := by decide
          rw [if_neg (by simp [hq0])] at heq
          simp only [Except.ok.injEq, Prod.mk.injEq] at heq
          rw [← heq.1]
          simp [GynecologySession.to_dict, submitStored_answers]
      | completed =>
          simp only [] at heq
          rw [submit_answer_not_active _ _ _ _ _ _ (fun h => by cases h)] at heq
          simp at heq
      | suspended =>
          simp only [] at heq
          rw [submit_answer_not_active _ _ _ _ _ _ (fun h => by cases h)] at heq
          simp at heq

/-- Claim C9: the answer store keeps at most one record per key (replacing
insert preserves unique keys and the new value wins), re-submitting under a
key yields literally the store one would get from the second write alone (so
the overwritten text is gone from every later rule scan), and the HTTP
message endpoint always submits under the single fixed key `"free_text"`, so
any record it saves holds at most one free-form answer, the latest one. -/
theorem answer_store_last_write_wins :
    (∀ (st : AnswerStore) (k : String) (v : AnswerVal),
        keysNodup st →
        keysNodup (storeInsert st k v) ∧ storeLookup (storeInsert st k v) k = some v)
    ∧ (∀ (st : AnswerStore) (k : String) (v1 v2 : AnswerVal),
        storeInsert (storeInsert st k v1) k v2 = storeInsert st k v2)
    ∧ (∀ (stored : SessionRecord) (msg now : String) (cy : Int) (o : Option String)
        (r' : SessionRecord) (out : Option String × Bool),
        keysNodup stored.patient_answers →
        gynecology_message stored msg now cy o = .ok (r', out) →
        keysNodup r'.patient_answers
        ∧ countKey r'.patient_answers "free_text" ≤ 1
        ∧ storeLookup r'.patient_answers "free_text" = some (.entry msg now)) := by
  refine ⟨fun st k v h => ⟨storeInsert_nodup st k v h, storeLookup_insert_self st k v⟩,
    storeInsert_insert, ?_⟩
  intro stored msg now cy o r' out hnd heq
  have hans := gynecology_message_answers stored msg now cy o r' out heq
  rw [hans]
  have hnd' := storeInsert_nodup stored.patient_answers "free_text" (.entry msg now) hnd
  exact ⟨hnd', countKey_le_one_of_nodup _ _ hnd',
    storeLookup_insert_self stored.patient_answers "free_text" (.entry msg now)⟩

/-- Witness for C9's endpoint clause: one message against a stored active
record. -/
theorem answer_store_last_write_wins_witness :
    keysNodup storedC9.patient_answers
    ∧ (keysNodup savedC9.patient_answers
        ∧ countKey savedC9.patient_answers "free_text" ≤ 1
        ∧ storeLookup savedC9.patient_answers "free_text" = some (.entry "hi" "t1")) :=
  ⟨by unfold keysNodup; decide,
    answer_store_last_write_wins.2.2 storedC9 "hi" "t1" 2025 none savedC9 (none, false)
      (by unfold keysNodup; decide) (by rfl)⟩
